import Mathlib

/-!
Shallow embedding of the Shopify Orders CRM backend (`backend/server.py`).

The store (`orders_collection`) is modelled as a `List OrderDoc` in natural
(insertion) order.  Python dictionary access `d.get(k)` / `d.get(k, default)`
is modelled with `Option` fields (`none` = key absent or `None`).  Python's
falsy `or` chain on strings is `pyOr`.  `str(uuid.uuid4())` and
`datetime.now().isoformat()` are passed in as explicit `uid` / `now`
parameters.  Entries of `payment_gateway_names` are kept dynamically typed
(`JValue`) because `gateway.upper()` raises at runtime on a non-string
entry; that is the representative exception source inside the webhook's
`try` block, so the document builder returns `Except String OrderDoc`.
-/

namespace ShopifyCRM

/-- Dynamically typed JSON-ish scalar, for payload entries whose type the
code does not control (for example `payment_gateway_names` entries). -/
inductive JValue where
  | str : String → JValue
  | num : Int → JValue
  | null : JValue
deriving DecidableEq

/-- Python `x or y` on an optional string: `y` when `x` is `None`/absent or
the empty string (falsy), else the string in `x`. -/
def pyOr (x : Option String) (y : String) : String :=
  match x with
  | some s => if s = "" then y else s
  | none => y

/-- Python `str(order_data.get('id'))`: `str(None)` is the string "None". -/
def pyStr (x : Option String) : String :=
  match x with
  | some s => s
  | none => "None"

/-- Python `s.upper()`: per-character uppercasing. -/
def pyUpper (s : String) : String :=
  ⟨s.data.map Char.toUpper⟩

/-- Python `s.strip()`: drop whitespace from both ends. -/
def pyStrip (s : String) : String :=
  ⟨((s.data.dropWhile (·.isWhitespace)).reverse.dropWhile
      (·.isWhitespace)).reverse⟩

/-- Test whether `s` starts with the literal prefix `pfx` (the regex
`^#DEMO` match of the demo filters). -/
def strStartsWith (s pfx : String) : Bool :=
  pfx.data.isPrefixOf s.data

/-- Python `s.upper()` on a dynamically typed value: succeeds on strings,
raises `AttributeError` otherwise. -/
def jUpper : JValue → Except String String
  | .str s => .ok (pyUpper s)
  | .num _ => .error "AttributeError: int object has no attribute upper"
  | .null => .error "AttributeError: NoneType object has no attribute upper"

/-- Substring containment on character lists (`needle in hay` in Python). -/
def containsSub (hay needle : List Char) : Bool :=
  hay.tails.any (fun t => needle.isPrefixOf t)

/-- Python `needle in hay` on strings. -/
def strContains (hay needle : String) : Bool :=
  containsSub hay.data needle.data

/-- Case-insensitive containment, as the spec phrases it: both sides upper
cased before the substring test. -/
def strContainsCI (hay needle : String) : Bool :=
  strContains (pyUpper hay) (pyUpper needle)

/-- The fields of a payload address dictionary that the code reads. -/
structure Address where
  phone : Option String
  address1 : Option String
  address2 : Option String
deriving DecidableEq

/-- Address dictionary after the code's enhancement step: the original
fields plus the derived `full_address`. -/
structure EnhancedAddress where
  base : Address
  full_address : String
deriving DecidableEq

/-- The `customer` sub-dictionary fields the code reads. -/
structure Customer where
  first_name : Option String
  last_name : Option String
  email : Option String
deriving DecidableEq

/-- One entry of `line_items`; every field is copied verbatim by the code,
absent fields becoming `None`. -/
structure LineItem where
  id : Option JValue
  title : Option JValue
  variant_title : Option JValue
  quantity : Option JValue
  price : Option JValue
  vendor : Option JValue
  product_id : Option JValue
  variant_id : Option JValue
deriving DecidableEq

/-- The inbound webhook payload, restricted to the keys the code reads.
String-valued fields hold the `str` rendering of the payload value;
`none` models an absent key. -/
structure Payload where
  id : Option String
  name : Option String
  email : Option String
  phone : Option String
  customer : Option Customer
  billing_address : Option Address
  shipping_address : Option Address
  payment_gateway_names : List JValue
  line_items : List LineItem
  current_total_price : Option String
  currency : Option String
  financial_status : Option String
  fulfillment_status : Option String
  created_at : Option String
deriving DecidableEq

/-- A stored order document, as built by `shopify_webhook` and mutated by
`update_order_status`.  `local_status` and `notes` are `Option` because the
code defends with `existing_order.get('local_status', 'new')` and
`existing_order.get('notes', '')` against documents lacking those keys. -/
structure OrderDoc where
  id : String
  order_id : String
  order_number : String
  customer_name : String
  phone : String
  email : String
  products : List LineItem
  total_price : String
  currency : String
  financial_status : String
  fulfillment_status : Option String
  payment_method : String
  billing_address : EnhancedAddress
  shipping_address : EnhancedAddress
  created_at : String
  local_status : Option String
  status_updated_at : Option String
  notes : Option String
  webhook_data : Payload
deriving DecidableEq

/-- The empty dictionary default of `order_data.get('billing_address', ..)`. -/
def emptyAddress : Address := ⟨none, none, none⟩

/-- The empty dictionary default of `order_data.get('customer', ..)`. -/
def emptyCustomer : Customer := ⟨none, none, none⟩

/-- The `any(... for gateway in payment_gateway_names)` generator: scans
left to right, short-circuits on the first match, raises on the first
non-string entry reached. -/
def codScan : List JValue → Except String Bool
  | [] => .ok false
  | g :: rest => do
    let u ← jUpper g
    if strContains u "COD" || strContains u "CASH ON DELIVERY" then .ok true
    else codScan rest

/-- The per-line-item product dictionary (`item.get(..)` for each field). -/
def buildProduct (item : LineItem) : LineItem :=
  { id := item.id, title := item.title, variant_title := item.variant_title,
    quantity := item.quantity, price := item.price, vendor := item.vendor,
    product_id := item.product_id, variant_id := item.variant_id }

/-- Address enhancement: copy the dictionary and append the derived
`full_address` built from `address1` and `address2`, stripped. -/
def enhance (a : Address) : EnhancedAddress :=
  ⟨a, pyStrip ((a.address1.getD "") ++ " " ++ (a.address2.getD ""))⟩

/-- Construction of `order_doc` in `shopify_webhook` (lines 78-135 of
`server.py`): field extraction with fallbacks, payment classification,
product mapping, address enhancement.  Fails when the generator inside
`any(..)` raises. -/
def buildOrderDoc (p : Payload) (uid now : String) : Except String OrderDoc := do
  let customer := p.customer.getD emptyCustomer
  let customer_name :=
    pyStrip ((customer.first_name.getD "") ++ " " ++ (customer.last_name.getD ""))
  let billing := p.billing_address.getD emptyAddress
  let phone := pyOr billing.phone (p.phone.getD "")
  let isCOD ← codScan p.payment_gateway_names
  let shipping := p.shipping_address.getD emptyAddress
  .ok
    { id := uid
      order_id := pyStr p.id
      order_number := p.name.getD ""
      customer_name := customer_name
      phone := phone
      email := pyOr p.email (customer.email.getD "")
      products := p.line_items.map buildProduct
      total_price := p.current_total_price.getD "0"
      currency := p.currency.getD "INR"
      financial_status := p.financial_status.getD ""
      fulfillment_status := p.fulfillment_status
      payment_method := if isCOD then "COD" else "Prepaid"
      billing_address := enhance billing
      shipping_address := enhance shipping
      created_at := p.created_at.getD now
      local_status := some "new"
      status_updated_at := none
      notes := some ""
      webhook_data := p }

/-- Mongo `find_one` on the `order_id` key: first document in natural
order matching the filter. -/
def findOrder (oid : String) (store : List OrderDoc) : Option OrderDoc :=
  store.find? (fun d => d.order_id == oid)

/-- Mongo `replace_one`: replace the first document matching the filter. -/
def replaceFirst (oid : String) (doc : OrderDoc) : List OrderDoc → List OrderDoc
  | [] => []
  | d :: rest =>
    if d.order_id == oid then doc :: rest else d :: replaceFirst oid doc rest

/-- The success body returned by the webhook endpoint. -/
structure WebhookResponse where
  order_id : String
deriving DecidableEq

/-- The `POST /api/webhook/shopify` handler: build the document, then
upsert by `order_id`, preserving `local_status`, `status_updated_at` and
`notes` from an existing document.  Returns the store after the call and
either the success response or the 500 detail message.  On an exception
the store is returned untouched: the only write happens after the whole
document is built. -/
def shopify_webhook (p : Payload) (uid now : String) (store : List OrderDoc) :
    List OrderDoc × Except String WebhookResponse :=
  match buildOrderDoc p uid now with
  | .error e => (store, .error ("Error processing webhook: " ++ e))
  | .ok doc =>
    match findOrder doc.order_id store with
    | some existing =>
      let doc' :=
        { doc with
          local_status := some (existing.local_status.getD "new")
          status_updated_at := existing.status_updated_at
          notes := some (existing.notes.getD "") }
      (replaceFirst doc.order_id doc' store, .ok ⟨doc.order_id⟩)
    | none => (store ++ [doc], .ok ⟨doc.order_id⟩)

/-- The fixed status enumeration of `update_order_status`. -/
def valid_statuses : List String :=
  ["new", "confirmed", "cancelled", "not_picked", "dispatched", "delivered", "rto"]

/-- Error outcomes of the status update endpoint. -/
inductive UpdateErr where
  | badRequest
  | notFound
deriving DecidableEq

/-- The `$set` applied by `update_order_status` to a matched document. -/
def setStatus (status now : String) (d : OrderDoc) : OrderDoc :=
  { d with local_status := some status, status_updated_at := some now }

/-- Mongo `update_one` with a `$set`: modifies the first document matching
the filter; returns the new store and the matched count (0 or 1). -/
def update_one (oid status now : String) : List OrderDoc → List OrderDoc × Nat
  | [] => ([], 0)
  | d :: rest =>
    if d.order_id == oid then (setStatus status now d :: rest, 1)
    else
      let r := update_one oid status now rest
      (d :: r.1, r.2)

/-- The `PUT /api/orders/.../status` handler: validate the status against
the fixed enumeration (400 on failure), run the `update_one`, report 404
when nothing matched.  Returns the store after the call and the outcome. -/
def update_order_status (oid status now : String) (store : List OrderDoc) :
    List OrderDoc × Except UpdateErr Unit :=
  if valid_statuses.contains status then
    let r := update_one oid status now store
    if r.2 = 0 then (r.1, .error .notFound) else (r.1, .ok ())
  else (store, .error .badRequest)

/-- The demo-exclusion filter `order_number not matching regex ^#DEMO`. -/
def nonDemoDoc (d : OrderDoc) : Bool :=
  !(strStartsWith d.order_number "#DEMO")

/-- The query document built by `get_orders`: Python `if status:` adds the
`local_status` clause only for a truthy (non-`None`, non-empty) value. -/
def ordersQuery (status : Option String) (d : OrderDoc) : Bool :=
  (match status with
   | some s => if s = "" then true else d.local_status == some s
   | none => true) && nonDemoDoc d

/-- Sort key of `get_orders`: `created_at` descending. -/
def createdDescR (a b : OrderDoc) : Prop :=
  b.created_at.data ≤ a.created_at.data

instance : DecidableRel createdDescR := fun a b =>
  inferInstanceAs (Decidable (b.created_at.data ≤ a.created_at.data))

instance : IsTotal OrderDoc createdDescR :=
  ⟨fun a b => (le_total b.created_at.data a.created_at.data).imp id id⟩

instance : IsTrans OrderDoc createdDescR :=
  ⟨fun _ _ _ h1 h2 => le_trans h2 h1⟩

/-- The `GET /api/orders` handler: filter (demo exclusion plus optional
status clause), sort by `created_at` descending, then `to_list(length=100)`
takes the first 100 of the sorted cursor. -/
def get_orders (status : Option String) (store : List OrderDoc) : List OrderDoc :=
  ((store.filter (ordersQuery status)).insertionSort createdDescR).take 100

/-- The non-demo documents, in store order (the `$match` stage of the
stats pipeline). -/
def nonDemo (store : List OrderDoc) : List OrderDoc :=
  store.filter nonDemoDoc

/-- The distinct `$group` keys of the stats pipeline: the distinct
`local_status` values among non-demo documents (a document lacking the
field would group under the null key, hence `Option String`). -/
def statKeys (store : List OrderDoc) : List (Option String) :=
  ((nonDemo store).map (·.local_status)).dedup

/-- The `GET /api/orders/stats` handler: group non-demo documents by
`local_status` and count each group. -/
def get_order_stats (store : List OrderDoc) : List (Option String × Nat) :=
  (statKeys store).map
    (fun k => (k, ((nonDemo store).filter (·.local_status == k)).length))

/-- Lookup of a named status in the stats mapping (`stats_dict.get(s)`). -/
def statsLookup (store : List OrderDoc) (s : String) : Option Nat :=
  ((get_order_stats store).find? (fun kv => kv.1 == some s)).map (·.2)

/-! Proof-side helpers: a pure form of the document builder, and basic
lemmas about the scan, the store primitives and the stats pipeline. -/

/-- The document `buildOrderDoc` produces once the payment scan has
returned `isCOD`; proved equal to the builder in `buildOrderDoc_eq`. -/
def mkDoc (p : Payload) (uid now : String) (isCOD : Bool) : OrderDoc :=
  { id := uid
    order_id := pyStr p.id
    order_number := p.name.getD ""
    customer_name :=
      pyStrip (((p.customer.getD emptyCustomer).first_name.getD "") ++ " " ++
        ((p.customer.getD emptyCustomer).last_name.getD ""))
    phone := pyOr (p.billing_address.getD emptyAddress).phone (p.phone.getD "")
    email := pyOr p.email ((p.customer.getD emptyCustomer).email.getD "")
    products := p.line_items.map buildProduct
    total_price := p.current_total_price.getD "0"
    currency := p.currency.getD "INR"
    financial_status := p.financial_status.getD ""
    fulfillment_status := p.fulfillment_status
    payment_method := if isCOD then "COD" else "Prepaid"
    billing_address := enhance (p.billing_address.getD emptyAddress)
    shipping_address := enhance (p.shipping_address.getD emptyAddress)
    created_at := p.created_at.getD now
    local_status := some "new"
    status_updated_at := none
    notes := some ""
    webhook_data := p }

theorem buildOrderDoc_eq (p : Payload) (uid now : String) :
    buildOrderDoc p uid now =
      Except.map (mkDoc p uid now) (codScan p.payment_gateway_names) := by
  cases h : codScan p.payment_gateway_names with
  | error e => unfold buildOrderDoc; rw [h]; rfl
  | ok b => unfold buildOrderDoc; rw [h]; rfl

theorem buildOrderDoc_ok_iff {p : Payload} {uid now : String} {doc : OrderDoc} :
    buildOrderDoc p uid now = .ok doc ↔
      ∃ b, codScan p.payment_gateway_names = .ok b ∧ doc = mkDoc p uid now b := by
  rw [buildOrderDoc_eq]
  cases h : codScan p.payment_gateway_names with
  | error e => simp [Except.map]
  | ok b => simp [Except.map, eq_comm]

theorem codScan_cons_str (s : String) (rest : List JValue) :
    codScan (JValue.str s :: rest) =
      if strContains (pyUpper s) "COD" ||
          strContains (pyUpper s) "CASH ON DELIVERY" then .ok true
      else codScan rest := rfl

theorem codScan_map_str (gws : List String) :
    codScan (gws.map JValue.str) =
      .ok (gws.any (fun g => strContains (pyUpper g) "COD" ||
        strContains (pyUpper g) "CASH ON DELIVERY")) := by
  induction gws with
  | nil => rfl
  | cons g rest ih =>
    rw [List.map_cons, codScan_cons_str, List.any_cons]
    cases hcond : (strContains (pyUpper g) "COD" ||
        strContains (pyUpper g) "CASH ON DELIVERY") with
    | true => rw [if_pos rfl, Bool.true_or]
    | false => rw [if_neg (by simp), Bool.false_or, ih]

theorem codScan_ok_of_strings (l : List JValue)
    (hg : ∀ g ∈ l, ∃ s, g = JValue.str s) : ∃ b, codScan l = .ok b := by
  induction l with
  | nil => exact ⟨false, rfl⟩
  | cons g rest ih =>
    obtain ⟨s, rfl⟩ := hg g (List.mem_cons_self g rest)
    obtain ⟨b, hb⟩ := ih (fun g hgm => hg g (List.mem_cons_of_mem _ hgm))
    rw [codScan_cons_str]
    cases hcond : (strContains (pyUpper s) "COD" ||
        strContains (pyUpper s) "CASH ON DELIVERY") with
    | true => exact ⟨true, by rw [if_pos rfl]⟩
    | false => exact ⟨b, by rw [if_neg (by simp), hb]⟩

theorem findOrder_replaceFirst {oid : String} {store : List OrderDoc}
    {existing doc' : OrderDoc} (hex : findOrder oid store = some existing)
    (hid : doc'.order_id = oid) :
    findOrder oid (replaceFirst oid doc' store) = some doc' := by
  induction store with
  | nil => simp [findOrder] at hex
  | cons d rest ih =>
    by_cases h : d.order_id == oid
    · simp [findOrder, replaceFirst, List.find?, h, hid]
    · simp only [findOrder, List.find?, replaceFirst] at hex ⊢
      rw [if_neg (by simpa using h)]
      simp only [List.find?]
      rw [Bool.eq_false_iff.mpr h] at hex ⊢
      exact ih hex

theorem findOrder_append_same {oid : String} {store : List OrderDoc}
    {doc : OrderDoc} (hnone : findOrder oid store = none)
    (hid : doc.order_id = oid) :
    findOrder oid (store ++ [doc]) = some doc := by
  induction store with
  | nil => simp [findOrder, List.find?, hid]
  | cons d rest ih =>
    simp only [findOrder, List.find?, List.cons_append] at hnone ⊢
    cases h : (d.order_id == oid) with
    | true => rw [h] at hnone; exact absurd hnone (by simp)
    | false =>
      rw [h] at hnone
      exact ih hnone

theorem shopify_webhook_ok {p : Payload} {uid now : String} {doc : OrderDoc}
    (h : buildOrderDoc p uid now = .ok doc) (store : List OrderDoc) :
    shopify_webhook p uid now store =
      match findOrder doc.order_id store with
      | some existing =>
        (replaceFirst doc.order_id
          { doc with
            local_status := some (existing.local_status.getD "new")
            status_updated_at := existing.status_updated_at
            notes := some (existing.notes.getD "") } store,
         .ok ⟨doc.order_id⟩)
      | none => (store ++ [doc], .ok ⟨doc.order_id⟩) := by
  unfold shopify_webhook
  rw [h]

/-! Concrete sample data used by witnesses and counterexamples. -/

/-- A well-typed sample payload (external id 555, prepaid gateway). -/
def samplePayload : Payload :=
  { id := some "555"
    name := some "#9001"
    email := some "buyer@example.com"
    phone := some "12345"
    customer := some ⟨some "Test", some "Customer", some "tc@example.com"⟩
    billing_address := some ⟨some "777", some "1 Main St", none⟩
    shipping_address := none
    payment_gateway_names := [JValue.str "Razorpay"]
    line_items := []
    current_total_price := some "1999.00"
    currency := some "INR"
    financial_status := some "pending"
    fulfillment_status := none
    created_at := some "2024-01-01T00:00:00" }

/-- The sample payload with a non-string gateway entry, which makes
`gateway.upper()` raise during ingestion. -/
def pBadGateway : Payload :=
  { samplePayload with payment_gateway_names := [JValue.num 3] }

/-- The sample payload without a top-level `id` key. -/
def pNoId : Payload :=
  { samplePayload with id := none }

/-- The sample payload with a present-but-empty billing phone and a
non-empty top-level phone. -/
def pEmptyBillingPhone : Payload :=
  { samplePayload with
    billing_address := some ⟨some "", none, none⟩
    phone := some "999" }

/-- A stored document for external order id 555 whose operator-controlled
fields have been changed after the first ingestion. -/
def sampleStored : OrderDoc :=
  { mkDoc samplePayload "uuid-1" "t1" false with
    local_status := some "confirmed"
    status_updated_at := some "2024-02-02T00:00:00"
    notes := some "call later" }

/-! Claim theorems. -/

/-- C7: if any exception is raised while building the order document
(parsing), the webhook reports a processing failure carrying the
triggering message, and the stored collection is returned exactly as it
was before the call. -/
theorem webhook_failure_atomic (p : Payload) (uid now : String)
    (store : List OrderDoc) (msg : String)
    (h : buildOrderDoc p uid now = .error msg) :
    shopify_webhook p uid now store =
      (store, .error ("Error processing webhook: " ++ msg)) := by
  unfold shopify_webhook
  rw [h]

/-- Witness for C7: a payload whose gateway list holds the number 3 makes
the scan raise; the store is untouched and the message is carried. -/
theorem webhook_failure_atomic_witness :
    shopify_webhook pBadGateway "u" "t" [] =
      ([], .error ("Error processing webhook: " ++
        "AttributeError: int object has no attribute upper")) :=
  webhook_failure_atomic pBadGateway "u" "t" [] _ rfl

/-- C5: for a payload whose gateway entries are the strings `gws`, the
built document's `payment_method` is COD exactly when some gateway name
case-insensitively contains "COD" or "CASH ON DELIVERY", else Prepaid; an
empty gateway list yields Prepaid. -/
theorem payment_method_classification (p : Payload) (uid now : String)
    (gws : List String) (hg : p.payment_gateway_names = gws.map JValue.str) :
    ∃ doc, buildOrderDoc p uid now = .ok doc ∧
      doc.payment_method =
        (if gws.any (fun g => strContainsCI g "COD" ||
            strContainsCI g "CASH ON DELIVERY") then "COD" else "Prepaid") ∧
      (gws = [] → doc.payment_method = "Prepaid") := by
  have hCOD : pyUpper "COD" = "COD" := rfl
  have hCASH : pyUpper "CASH ON DELIVERY" = "CASH ON DELIVERY" := rfl
  have hb : codScan p.payment_gateway_names =
      .ok (gws.any (fun g => strContains (pyUpper g) "COD" ||
        strContains (pyUpper g) "CASH ON DELIVERY")) := by
    rw [hg, codScan_map_str]
  refine ⟨_, buildOrderDoc_ok_iff.mpr ⟨_, hb, rfl⟩, ?_, ?_⟩
  · show (if gws.any (fun g => strContains (pyUpper g) "COD" ||
        strContains (pyUpper g) "CASH ON DELIVERY")
      then "COD" else "Prepaid") =
      (if gws.any (fun g => strContainsCI g "COD" ||
        strContainsCI g "CASH ON DELIVERY") then "COD" else "Prepaid")
    simp only [strContainsCI, hCOD, hCASH]
  · intro hnil
    subst hnil
    rfl

/-- Witness for C5: the sample payload with gateway "Razorpay" is
classified Prepaid. -/
theorem payment_method_classification_witness :
    ∃ doc, buildOrderDoc samplePayload "u" "t" = .ok doc ∧
      doc.payment_method = "Prepaid" := by
  obtain ⟨doc, h1, h2, h3⟩ :=
    payment_method_classification samplePayload "u" "t" ["Razorpay"] rfl
  exact ⟨doc, h1, h2.trans (by decide)⟩

/-- C10: a payload with no top-level id ingests successfully: the built
document's external order id is the string "None", the response reports
order id "None", and afterwards a record is stored under the key "None". -/
theorem missing_id_ingests_as_none (p : Payload) (uid now : String)
    (store : List OrderDoc) (hid : p.id = none)
    (hg : ∀ g ∈ p.payment_gateway_names, ∃ s, g = JValue.str s) :
    ∃ doc, buildOrderDoc p uid now = .ok doc ∧ doc.order_id = "None" ∧
      (shopify_webhook p uid now store).2 = .ok ⟨"None"⟩ ∧
      ∃ d, findOrder "None" (shopify_webhook p uid now store).1 = some d := by
  obtain ⟨b, hb⟩ := codScan_ok_of_strings _ hg
  have hdoc : buildOrderDoc p uid now = .ok (mkDoc p uid now b) :=
    buildOrderDoc_ok_iff.mpr ⟨b, hb, rfl⟩
  have hoid : (mkDoc p uid now b).order_id = "None" := by
    simp [mkDoc, hid, pyStr]
  refine ⟨_, hdoc, hoid, ?_⟩
  have hw := shopify_webhook_ok hdoc store
  rw [hoid] at hw
  rw [hw]
  cases hf : findOrder "None" store with
  | some ex => exact ⟨rfl, _, findOrder_replaceFirst hf rfl⟩
  | none => exact ⟨rfl, _, findOrder_append_same hf hoid⟩

/-- Witness for C10: the sample payload without an id stores under the
key "None". -/
theorem missing_id_ingests_as_none_witness :
    ∃ doc, buildOrderDoc pNoId "u" "t" = .ok doc ∧ doc.order_id = "None" ∧
      (shopify_webhook pNoId "u" "t" []).2 = .ok ⟨"None"⟩ ∧
      ∃ d, findOrder "None" (shopify_webhook pNoId "u" "t" []).1 = some d :=
  missing_id_ingests_as_none pNoId "u" "t" [] rfl
    (fun g hgm => by
      have hgl : pNoId.payment_gateway_names = [JValue.str "Razorpay"] := rfl
      rw [hgl, List.mem_singleton] at hgm
      exact ⟨"Razorpay", hgm⟩)

/-- C8 counterexample: with a billing phone that is present but empty and
a top-level phone "999", the code stores phone "999", while the claim
("the billing-address phone when present") demands the empty string. -/
theorem phone_fallback_counterexample :
    pEmptyBillingPhone.billing_address.bind Address.phone = some "" ∧
    Except.map OrderDoc.phone (buildOrderDoc pEmptyBillingPhone "u" "t") =
      .ok "999" ∧
    ("999" : String) ≠ "" :=
  ⟨rfl, rfl, by decide⟩

/-- C8 amended: the derived phone is the billing-address phone when that
is present and non-empty; otherwise the top-level payload phone when
present; otherwise the empty string. -/
theorem phone_resolution (p : Payload) (uid now : String) (doc : OrderDoc)
    (h : buildOrderDoc p uid now = .ok doc) :
    doc.phone =
      match p.billing_address.bind Address.phone with
      | some s => if s = "" then p.phone.getD "" else s
      | none => p.phone.getD "" := by
  obtain ⟨b, hb, rfl⟩ := buildOrderDoc_ok_iff.mp h
  show pyOr (p.billing_address.getD emptyAddress).phone (p.phone.getD "") =
    match p.billing_address.bind Address.phone with
    | some s => if s = "" then p.phone.getD "" else s
    | none => p.phone.getD ""
  cases hba : p.billing_address with
  | none => rfl
  | some a =>
    show pyOr a.phone (p.phone.getD "") =
      match a.phone with
      | some s => if s = "" then p.phone.getD "" else s
      | none => p.phone.getD ""
    cases hph : a.phone with
    | none => rfl
    | some s => rfl

/-- Witness for C8 amended: the sample payload resolves its phone through
the non-empty billing phone. -/
theorem phone_resolution_witness :
    (mkDoc samplePayload "u" "t" false).phone =
      match samplePayload.billing_address.bind Address.phone with
      | some s => if s = "" then samplePayload.phone.getD "" else s
      | none => samplePayload.phone.getD "" :=
  phone_resolution samplePayload "u" "t" (mkDoc samplePayload "u" "t" false) rfl

/-- C2 counterexample: re-ingesting external order id 555 with a second
generated identifier replaces the stored record's internal `id`: after the
first ingestion the stored id is "uuid-1", after the second it is
"uuid-2". -/
theorem internal_id_counterexample :
    Option.map OrderDoc.id
      (findOrder "555" (shopify_webhook samplePayload "uuid-1" "t1" []).1) =
      some "uuid-1" ∧
    Option.map OrderDoc.id
      (findOrder "555" (shopify_webhook samplePayload "uuid-2" "t2"
        (shopify_webhook samplePayload "uuid-1" "t1" []).1).1) =
      some "uuid-2" ∧
    ("uuid-2" : String) ≠ "uuid-1" :=
  ⟨rfl, rfl, by decide⟩

/-- C2 amended: the internal `id` is regenerated on every ingestion: after
any successful ingestion, first or repeated, the stored record for the
payload's external order id carries the identifier generated during that
very call; a re-ingestion does not preserve the previously assigned id. -/
theorem internal_id_regenerated (p : Payload) (uid now : String)
    (store : List OrderDoc) (doc : OrderDoc)
    (h : buildOrderDoc p uid now = .ok doc) :
    ∃ d, findOrder doc.order_id (shopify_webhook p uid now store).1 = some d ∧
      d.id = uid := by
  obtain ⟨b, hb, rfl⟩ := buildOrderDoc_ok_iff.mp h
  rw [shopify_webhook_ok h store]
  cases hf : findOrder (mkDoc p uid now b).order_id store with
  | some ex => exact ⟨_, findOrder_replaceFirst hf rfl, rfl⟩
  | none => exact ⟨_, findOrder_append_same hf rfl, rfl⟩

/-- Witness for C2 amended: ingesting the sample payload with generated
identifier "u9" stores a record whose internal id is "u9". -/
theorem internal_id_regenerated_witness :
    ∃ d, findOrder (mkDoc samplePayload "u9" "t" false).order_id
        (shopify_webhook samplePayload "u9" "t" []).1 = some d ∧
      d.id = "u9" :=
  internal_id_regenerated samplePayload "u9" "t" []
    (mkDoc samplePayload "u9" "t" false) rfl

/-- C1: ingesting a payload that builds to `doc` upserts by external
order id.  When a record for that id exists, the store's record is
replaced by `doc` with the existing record's `local_status` (defaulting
to "new" when absent), `status_updated_at` and `notes` carried over and
every other field freshly built; when no record exists, `doc` itself is
appended, with `local_status = "new"`, `status_updated_at = null`,
`notes = ""`. -/
theorem ingest_upsert_preserves_local (p : Payload) (uid now : String)
    (store : List OrderDoc) (doc : OrderDoc)
    (h : buildOrderDoc p uid now = .ok doc) :
    (∀ existing, findOrder doc.order_id store = some existing →
      shopify_webhook p uid now store =
        (replaceFirst doc.order_id
          { doc with
            local_status := some (existing.local_status.getD "new")
            status_updated_at := existing.status_updated_at
            notes := some (existing.notes.getD "") } store,
         .ok ⟨doc.order_id⟩) ∧
      findOrder doc.order_id (shopify_webhook p uid now store).1 =
        some { doc with
               local_status := some (existing.local_status.getD "new")
               status_updated_at := existing.status_updated_at
               notes := some (existing.notes.getD "") }) ∧
    (findOrder doc.order_id store = none →
      shopify_webhook p uid now store = (store ++ [doc], .ok ⟨doc.order_id⟩) ∧
      doc.local_status = some "new" ∧ doc.status_updated_at = none ∧
      doc.notes = some "") := by
  have hw := shopify_webhook_ok h store
  constructor
  · intro existing hex
    rw [hex] at hw
    exact ⟨hw, by rw [hw]; exact findOrder_replaceFirst hex rfl⟩
  · intro hnone
    rw [hnone] at hw
    obtain ⟨b, hb, rfl⟩ := buildOrderDoc_ok_iff.mp h
    exact ⟨hw, rfl, rfl, rfl⟩

/-- Witness for C1: re-ingesting order 555 over a stored record whose
local status was set to "confirmed" keeps that status. -/
theorem ingest_upsert_preserves_local_witness :
    Option.map OrderDoc.local_status
      (findOrder (mkDoc samplePayload "uuid-2" "t2" false).order_id
        (shopify_webhook samplePayload "uuid-2" "t2" [sampleStored]).1) =
      some (some "confirmed") := by
  rw [((ingest_upsert_preserves_local samplePayload "uuid-2" "t2" [sampleStored]
      (mkDoc samplePayload "uuid-2" "t2" false) rfl).1 sampleStored rfl).2]
  rfl

theorem update_one_eq_none {oid st now : String} {store : List OrderDoc}
    (hnone : findOrder oid store = none) :
    update_one oid st now store = (store, 0) := by
  induction store with
  | nil => rfl
  | cons d rest ih =>
    have hd : ¬(d.order_id == oid) = true :=
      List.find?_eq_none.mp hnone d (List.mem_cons_self d rest)
    have hrest : findOrder oid rest = none := by
      rw [findOrder] at hnone ⊢
      rwa [List.find?_cons_of_neg rest hd] at hnone
    simp [update_one, Bool.eq_false_iff.mpr hd, ih hrest]

theorem update_one_snd_of_found {oid st now : String} {store : List OrderDoc}
    {existing : OrderDoc} (hex : findOrder oid store = some existing) :
    (update_one oid st now store).2 = 1 := by
  induction store with
  | nil => simp [findOrder] at hex
  | cons d rest ih =>
    cases hd : (d.order_id == oid) with
    | true => simp [update_one, hd]
    | false =>
      have hrest : findOrder oid rest = some existing := by
        rw [findOrder] at hex ⊢
        rwa [List.find?_cons_of_neg rest (by simp [hd])] at hex
      simp [update_one, hd, ih hrest]

theorem update_one_cons_pos {oid st now : String} {d : OrderDoc}
    {rest : List OrderDoc} (hd : (d.order_id == oid) = true) :
    update_one oid st now (d :: rest) = (setStatus st now d :: rest, 1) := by
  simp [update_one, hd]

theorem update_one_cons_neg {oid st now : String} {d : OrderDoc}
    {rest : List OrderDoc} (hd : (d.order_id == oid) = false) :
    update_one oid st now (d :: rest) =
      (d :: (update_one oid st now rest).1, (update_one oid st now rest).2) := by
  simp [update_one, hd]

theorem update_one_fst_eq_map {oid st now : String} {store : List OrderDoc}
    (huniq : (store.filter (fun d => d.order_id == oid)).length ≤ 1) :
    (update_one oid st now store).1 =
      store.map (fun d => if d.order_id = oid then
        { d with local_status := some st, status_updated_at := some now }
        else d) := by
  induction store with
  | nil => rfl
  | cons d rest ih =>
    by_cases hdeq : d.order_id = oid
    · have hd : (d.order_id == oid) = true := beq_iff_eq.mpr hdeq
      have hcons := @List.filter_cons_of_pos _ (fun e => e.order_id == oid)
        d rest hd
      rw [hcons] at huniq
      have h0 : (rest.filter (fun e => e.order_id == oid)).length = 0 :=
        Nat.le_zero.mp (Nat.le_of_succ_le_succ (by simpa using huniq))
      have hrest : ∀ e ∈ rest, ¬e.order_id = oid := fun e he heq =>
        (List.filter_eq_nil_iff.mp (List.length_eq_zero.mp h0) e he)
          (beq_iff_eq.mpr heq)
      have hmap : rest.map (fun e => if e.order_id = oid then
          { e with local_status := some st, status_updated_at := some now }
          else e) = rest := by
        conv_rhs => rw [← List.map_id rest]
        exact List.map_congr_left (fun e he => if_neg (hrest e he))
      rw [update_one_cons_pos hd]
      simp only [List.map_cons]
      rw [if_pos hdeq, hmap]
      rfl
    · have hd : (d.order_id == oid) = false := by
        cases hbe : (d.order_id == oid) with
        | true => exact absurd (beq_iff_eq.mp hbe) hdeq
        | false => rfl
      have huniq2 : (rest.filter (fun e => e.order_id == oid)).length ≤ 1 := by
        rw [@List.filter_cons_of_neg _ (fun e => e.order_id == oid) d rest
          (by simp [hd])] at huniq
        exact huniq
      rw [update_one_cons_neg hd]
      simp only [List.map_cons]
      rw [if_neg hdeq, ih huniq2]

theorem update_order_status_spec (oid status now : String)
    (store : List OrderDoc) :
    update_order_status oid status now store =
      if status ∈ valid_statuses then
        (match findOrder oid store with
         | some _ => ((update_one oid status now store).1, Except.ok ())
         | none => (store, .error .notFound))
      else (store, .error .badRequest) := by
  unfold update_order_status
  by_cases hv : status ∈ valid_statuses
  · rw [if_pos (List.elem_iff.mpr hv), if_pos hv]
    cases hf : findOrder oid store with
    | none => simp [update_one_eq_none hf]
    | some ex => simp [update_one_snd_of_found hf]
  · rw [if_neg (fun hc => hv (List.elem_iff.mp hc)), if_neg hv]

/-- C3: the status update fails with the 400-class error exactly when the
target status is outside the fixed enumeration, fails with the 404-class
error exactly when the target is valid but no record matches the external
order id, and in every failure case the store is returned unchanged. -/
theorem update_status_validation (oid status now : String)
    (store : List OrderDoc) :
    ((update_order_status oid status now store).2 = .error .badRequest ↔
      status ∉ valid_statuses) ∧
    ((update_order_status oid status now store).2 = .error .notFound ↔
      status ∈ valid_statuses ∧ findOrder oid store = none) ∧
    (∀ e, (update_order_status oid status now store).2 = .error e →
      (update_order_status oid status now store).1 = store) := by
  rw [update_order_status_spec]
  by_cases hv : status ∈ valid_statuses
  · rw [if_pos hv]
    cases hf : findOrder oid store with
    | none => exact ⟨by simp [hv], by simp [hv], fun e _ => rfl⟩
    | some ex =>
      refine ⟨by simp [hv], by simp [hv, hf], fun e he => ?_⟩
      exact absurd he (by simp)
  · rw [if_neg hv]
    exact ⟨by simp [hv], by simp [hv], fun e _ => rfl⟩

/-- Witness for C3: updating to the invalid status "shipped" returns the
400-class error and leaves the sample store unchanged. -/
theorem update_status_validation_witness :
    ((update_order_status "555" "shipped" "t" [sampleStored]).2 =
      .error .badRequest) ∧
    (update_order_status "555" "shipped" "t" [sampleStored]).1 =
      [sampleStored] := by
  have h := update_status_validation "555" "shipped" "t" [sampleStored]
  have hbad := h.1.mpr (by decide)
  exact ⟨hbad, h.2.2 .badRequest hbad⟩

/-- C4: for a valid target status, if at most one stored record carries
the given external order id, then the update rewrites exactly the
matching records to carry the new `local_status` and the current time in
`status_updated_at`, leaving every other field and every other record
unchanged (the store is mapped pointwise). -/
theorem update_status_frame (oid status now : String) (store : List OrderDoc)
    (hval : status ∈ valid_statuses)
    (huniq : (store.filter (fun d => d.order_id == oid)).length ≤ 1) :
    (update_order_status oid status now store).1 =
      store.map (fun d => if d.order_id = oid then
        { d with local_status := some status, status_updated_at := some now }
        else d) := by
  rw [update_order_status_spec, if_pos hval]
  cases hf : findOrder oid store with
  | none =>
    show store = _
    have hnone : ∀ d ∈ store, ¬d.order_id = oid := by
      intro d hd heq
      exact List.find?_eq_none.mp hf d hd (beq_iff_eq.mpr heq)
    conv_lhs => rw [← List.map_id store]
    exact (List.map_congr_left (fun d hd => (if_neg (hnone d hd)).symm))
  | some ex => exact update_one_fst_eq_map huniq

/-- Witness for C4: dispatching order 555 in a one-record store updates
exactly that record's two status fields. -/
theorem update_status_frame_witness :
    (update_order_status "555" "dispatched" "t9" [sampleStored]).1 =
      [{ sampleStored with
         local_status := some "dispatched", status_updated_at := some "t9" }] := by
  rw [update_status_frame "555" "dispatched" "t9" [sampleStored] (by decide)
    (by decide)]
  rfl

/-- C6 counterexample: a status filter supplied as the empty string is
falsy in Python, so the code applies no status restriction: a stored
record whose local status is "confirmed" (not equal to "") is still
returned. -/
theorem get_orders_empty_filter_counterexample :
    get_orders (some "") [sampleStored] = [sampleStored] ∧
    sampleStored.local_status ≠ some "" :=
  ⟨rfl, by decide⟩

/-- C6 amended: for a status filter that is absent or non-empty, the
listing returns exactly the stored non-demo orders matching the filter,
sorted by `created_at` descending, truncated to at most 100 (and to
exactly 100 whenever at least 100 match). -/
theorem get_orders_spec (status : Option String) (store : List OrderDoc)
    (hs : ∀ s, status = some s → s ≠ "") :
    (get_orders status store).length ≤ 100 ∧
    List.Sorted (fun a b : OrderDoc =>
      b.created_at.data ≤ a.created_at.data) (get_orders status store) ∧
    (∀ d ∈ get_orders status store, d ∈ store ∧
      ¬strStartsWith d.order_number "#DEMO" ∧
      (∀ s, status = some s → d.local_status = some s)) ∧
    ((store.filter (fun d => (!strStartsWith d.order_number "#DEMO") &&
        status.all (fun s => d.local_status == some s))).length ≤ 100 →
      (get_orders status store).Perm
        (store.filter (fun d => (!strStartsWith d.order_number "#DEMO") &&
          status.all (fun s => d.local_status == some s)))) ∧
    (100 ≤ (store.filter (fun d => (!strStartsWith d.order_number "#DEMO") &&
        status.all (fun s => d.local_status == some s))).length →
      (get_orders status store).length = 100) := by
  have hfe : store.filter (fun d => (!strStartsWith d.order_number "#DEMO") &&
      status.all (fun s => d.local_status == some s)) =
      store.filter (ordersQuery status) := by
    apply List.filter_congr
    intro d _
    cases status with
    | none => simp [ordersQuery, nonDemoDoc, Bool.and_comm]
    | some s =>
      have hne : s ≠ "" := hs s rfl
      simp [ordersQuery, nonDemoDoc, hne, Bool.and_comm]
  have hsortlen : ((store.filter (ordersQuery status)).insertionSort
      createdDescR).length = (store.filter (ordersQuery status)).length :=
    (List.perm_insertionSort createdDescR _).length_eq
  refine ⟨?_, ?_, ?_, ?_, ?_⟩
  · rw [get_orders, List.length_take]
    exact inf_le_left
  · exact List.Pairwise.sublist (List.take_sublist _ _)
      (List.sorted_insertionSort createdDescR _)
  · intro d hd
    have hd2 : d ∈ (store.filter (ordersQuery status)).insertionSort
        createdDescR := (List.take_sublist _ _).subset hd
    have hd3 : d ∈ store.filter (ordersQuery status) :=
      (List.mem_insertionSort createdDescR).mp hd2
    obtain ⟨hmem, hq⟩ := List.mem_filter.mp hd3
    obtain ⟨hst, hnd⟩ := Bool.and_eq_true_iff.mp hq
    refine ⟨hmem, ?_, ?_⟩
    · simpa [nonDemoDoc] using hnd
    · intro s hss
      subst hss
      have hne : s ≠ "" := hs s rfl
      simpa [hne] using hst
  · intro hlen
    rw [hfe] at hlen ⊢
    rw [get_orders, List.take_of_length_le (by rw [hsortlen]; exact hlen)]
    exact List.perm_insertionSort createdDescR _
  · intro hlen
    rw [hfe] at hlen
    rw [get_orders, List.length_take, hsortlen]
    exact min_eq_left hlen

/-- Witness for C6 amended: with no status filter, listing a one-record
non-demo store returns a permutation of that store's matching records. -/
theorem get_orders_spec_witness :
    (get_orders none [sampleStored]).Perm
      ([sampleStored].filter (fun d =>
        (!strStartsWith d.order_number "#DEMO") &&
        Option.all (fun s => d.local_status == some s) none)) :=
  (get_orders_spec none [sampleStored]
    (fun _ h => Option.noConfusion h)).2.2.2.1 (by decide)

theorem find?_beq_of_mem {α : Type} [BEq α] [LawfulBEq α] {l : List α} {a : α}
    (ha : a ∈ l) : l.find? (fun k => k == a) = some a := by
  induction l with
  | nil => cases ha
  | cons b rest ih =>
    cases hb : (b == a) with
    | true =>
      rw [@List.find?_cons_of_pos _ (fun k => k == a) b rest hb,
        beq_iff_eq.mp hb]
    | false =>
      rw [@List.find?_cons_of_neg _ (fun k => k == a) b rest (by simp [hb])]
      rcases List.mem_cons.mp ha with heq | hmem
      · exact absurd (beq_iff_eq.mpr heq.symm) (by simp [hb])
      · exact ih hmem

theorem statKeys_mem_iff (store : List OrderDoc) (s : String) :
    (some s ∈ statKeys store) ↔
      0 < store.countP (fun d => (!strStartsWith d.order_number "#DEMO") &&
        (d.local_status == some s)) := by
  rw [statKeys, List.mem_dedup, List.countP_pos_iff]
  constructor
  · intro hm
    obtain ⟨d, hd, hds⟩ := List.mem_map.mp hm
    obtain ⟨hd_store, hd_nd⟩ := List.mem_filter.mp hd
    refine ⟨d, hd_store, ?_⟩
    have h1 : (!strStartsWith d.order_number "#DEMO") = true := by
      simpa [nonDemoDoc] using hd_nd
    simp [h1, hds]
  · rintro ⟨d, hd, hp⟩
    obtain ⟨h1, h2⟩ := Bool.and_eq_true_iff.mp hp
    exact List.mem_map.mpr ⟨d,
      List.mem_filter.mpr ⟨hd, by simpa [nonDemoDoc] using h1⟩,
      beq_iff_eq.mp h2⟩

/-- C9: the stats mapping sends a status name to the number of non-demo
stored orders carrying it as `local_status`, and holds no key at all for
a status with zero such orders. -/
theorem stats_counts (store : List OrderDoc) (s : String) :
    statsLookup store s =
      (if store.countP (fun d => (!strStartsWith d.order_number "#DEMO") &&
          (d.local_status == some s)) = 0 then none
       else some (store.countP (fun d =>
          (!strStartsWith d.order_number "#DEMO") &&
          (d.local_status == some s)))) := by
  have hc : store.countP (fun d => (!strStartsWith d.order_number "#DEMO") &&
      (d.local_status == some s)) =
      ((nonDemo store).filter (fun d => d.local_status == some s)).length := by
    rw [List.countP_eq_length_filter, nonDemo, List.filter_filter]
    apply congrArg List.length
    apply List.filter_congr
    intro d _
    simp [nonDemoDoc, Bool.and_comm]
  rw [statsLookup, get_order_stats, List.find?_map]
  by_cases hmem : some s ∈ statKeys store
  · have hpos := (statKeys_mem_iff store s).mp hmem
    have hfind : (statKeys store).find?
        ((fun kv : Option String × Nat => kv.1 == some s) ∘
          (fun k => (k, ((nonDemo store).filter (·.local_status == k)).length)))
        = some (some s) := by
      have : ((fun kv : Option String × Nat => kv.1 == some s) ∘
          (fun k => (k, ((nonDemo store).filter (·.local_status == k)).length)))
          = (fun k => k == some s) := rfl
      rw [this]
      exact find?_beq_of_mem hmem
    rw [hfind, if_neg (Nat.pos_iff_ne_zero.mp hpos), hc]
    rfl
  · have hzero : store.countP (fun d =>
        (!strStartsWith d.order_number "#DEMO") &&
        (d.local_status == some s)) = 0 := by
      by_contra hne
      exact hmem ((statKeys_mem_iff store s).mpr (Nat.pos_of_ne_zero hne))
    have hfind : (statKeys store).find?
        ((fun kv : Option String × Nat => kv.1 == some s) ∘
          (fun k => (k, ((nonDemo store).filter (·.local_status == k)).length)))
        = none := by
      rw [List.find?_eq_none]
      intro k hk hbeq
      have hks : k = some s := by simpa using hbeq
      exact hmem (hks ▸ hk)
    rw [hfind, if_pos hzero]
    rfl

end ShopifyCRM
